import Mathlib

/-!
Verification of `validate_models.py`, the glTF/GLB model validator of the
NTB repository.  The Python script is shallowly embedded here:

* Python floats are modelled as exact fractions `PyFloat` (an `Int`
  numerator over a positive `Int` denominator).  The comparisons against
  the fixed thresholds 0.3, 1.0 and 1.2 = 2 * 0.6 that the claims
  exercise behave identically for IEEE doubles and for the corresponding
  exact rationals, because doubling the nearest double to 0.6 yields
  exactly the nearest double to 1.2;
* decoded JSON metadata is the inductive type `Json`;
* Python's dynamically-typed operations (`in`, subscripting, `len`,
  iteration, `.get`, subtraction, float formatting) are modelled as
  functions into `Py α := Except String α`, where `Except.error` is an
  uncaught Python exception;
* each stage of `validate_model` is transcribed as a total function, and
  the whole per-file validation is `validate_model`;
* the binary GLB header parsing of `parse_glb_file` is transcribed over a
  byte list, with the external `json.loads`/UTF-8 decode step abstracted
  as a function argument `loads` returning `none` on failure;
* the exit-code logic of `main` is transcribed as `main_exit`.
-/

/-- An exact-fraction model of a Python float: an integer numerator over
a positive integer denominator.  The value denoted is `num / den`. -/
structure PyFloat where
  num : Int
  den : Int
  den_pos : 0 < den
deriving DecidableEq

/-- Smart constructor: `pf n d` is the fraction `n / d` (for `d ≤ 0` it
falls back to `n / 1`; all uses in this file have a positive literal
denominator). -/
def pf (n d : Int) : PyFloat :=
  if h : 0 < d then ⟨n, d, h⟩ else ⟨n, 1, Int.one_pos⟩

/-- Value-level strict order on `PyFloat` (cross multiplication; the
denominators are positive). -/
def PyFloat.lt (a b : PyFloat) : Prop := a.num * b.den < b.num * a.den

instance (a b : PyFloat) : Decidable (PyFloat.lt a b) :=
  inferInstanceAs (Decidable (_ < _))

/-- Value-level order on `PyFloat`. -/
def PyFloat.le (a b : PyFloat) : Prop := a.num * b.den ≤ b.num * a.den

instance (a b : PyFloat) : Decidable (PyFloat.le a b) :=
  inferInstanceAs (Decidable (_ ≤ _))

/-- Python `==` against zero (used by truthiness). -/
def PyFloat.isZero (a : PyFloat) : Bool := a.num == 0

/-- Multiplication of exact fractions. -/
def PyFloat.mul (a b : PyFloat) : PyFloat :=
  ⟨a.num * b.num, a.den * b.den, Int.mul_pos a.den_pos b.den_pos⟩

/-- Subtraction of exact fractions (Python `x - y`). -/
def PyFloat.sub (a b : PyFloat) : PyFloat :=
  ⟨a.num * b.den - b.num * a.den, a.den * b.den, Int.mul_pos a.den_pos b.den_pos⟩

/-- Division of exact fractions (Python `x / y`).  Division by zero is
mapped to `0`; every division performed by the validator is guarded by
`max_dim > 0`, so this case is never reached on the executed paths. -/
def PyFloat.div (a b : PyFloat) : PyFloat :=
  if h : 0 < b.num then ⟨a.num * b.den, a.den * b.num, Int.mul_pos a.den_pos h⟩
  else if h2 : b.num < 0 then
    ⟨-(a.num * b.den), a.den * (-b.num), Int.mul_pos a.den_pos (by omega)⟩
  else ⟨0, 1, Int.one_pos⟩

/-- Python's two-argument `max` (and the fold of `max` over a list):
returns the second argument only when it is strictly greater, keeping
the first representative on ties, as CPython does. -/
def PyFloat.pymax (a b : PyFloat) : PyFloat := if PyFloat.lt a b then b else a

/-- A decoded JSON value as produced by Python's `json.loads`. -/
inductive Json where
  | null : Json
  | bool (b : Bool) : Json
  | num (q : PyFloat) : Json
  | str (s : String) : Json
  | arr (elems : List Json) : Json
  | obj (fields : List (String × Json)) : Json

/-- Python result type: `Except.error msg` models an uncaught exception. -/
abbrev Py (α : Type) := Except String α

/-- Python truthiness (`bool(x)`) of a decoded JSON value:
`None`, `False`, `0`, `""`, `[]` and `{}` are falsy. -/
def Json.falsy : Json → Bool
  | .null => true
  | .bool b => !b
  | .num q => q.isZero
  | .str s => s.isEmpty
  | .arr xs => xs.isEmpty
  | .obj fs => fs.isEmpty

/-- Key lookup in a decoded JSON object (first binding; `json.loads`
produces dicts whose keys are unique).  Returns `none` on non-objects. -/
def Json.lookup : Json → String → Option Json
  | .obj fields, k => List.lookup k fields
  | _, _ => none

/-- Boolean substring test, modelling Python's `needle in haystack` on
strings. -/
def strContains (hay needle : String) : Bool :=
  decide (List.IsInfix needle.toList hay.toList)

/-- Python's `k in x` for a string `k`: key membership for dicts, element
membership for lists (a string compares equal only to an equal string),
substring test for strings; `TypeError` otherwise. -/
def pyIn (k : String) : Json → Py Bool
  | .obj fs => .ok ((List.lookup k fs).isSome)
  | .arr xs => .ok (xs.any (fun x => match x with | .str s => s == k | _ => false))
  | .str s => .ok (strContains s k)
  | _ => .error "TypeError: argument is not iterable"

/-- Python's `x[k]` for a string key `k`: dict lookup (raising `KeyError`
when absent), `TypeError` on everything else. -/
def pySubscriptKey (j : Json) (k : String) : Py Json :=
  match j with
  | .obj fs =>
    match List.lookup k fs with
    | some v => .ok v
    | none => .error "KeyError"
  | .str _ => .error "TypeError: string indices must be integers"
  | _ => .error "TypeError: not subscriptable"

/-- Python's `x[i]` for a non-negative integer index: list indexing
(raising `IndexError` when out of range), single-character string
indexing, `TypeError` otherwise. -/
def pyIndexNat (j : Json) (i : Nat) : Py Json :=
  match j with
  | .arr xs =>
    match xs.get? i with
    | some v => .ok v
    | none => .error "IndexError: list index out of range"
  | .str s =>
    match s.toList.get? i with
    | some c => .ok (.str (String.mk [c]))
    | none => .error "IndexError: string index out of range"
  | _ => .error "TypeError: not subscriptable"

/-- Python's `len(x)`: defined for strings, lists and dicts;
`TypeError` otherwise. -/
def pyLen : Json → Py Nat
  | .str s => .ok s.length
  | .arr xs => .ok xs.length
  | .obj fs => .ok fs.length
  | _ => .error "TypeError: object has no len"

/-- Python iteration (`for x in j`): elements for lists, one-character
strings for strings, keys for dicts; `TypeError` otherwise. -/
def pyIter : Json → Py (List Json)
  | .arr xs => .ok xs
  | .str s => .ok (s.toList.map (fun c => .str (String.mk [c])))
  | .obj fs => .ok (fs.map (fun p => .str p.1))
  | _ => .error "TypeError: object is not iterable"

/-- Python's `d.get(k, default)` method: only dicts have `.get`;
`AttributeError` otherwise. -/
def pyGetD (j : Json) (k : String) (default : Json) : Py Json :=
  match j with
  | .obj fs => .ok ((List.lookup k fs).getD default)
  | _ => .error "AttributeError: object has no attribute get"

/-- Numeric coercion used by arithmetic and `%.Nf` formatting: numbers
coerce to themselves, booleans to 0/1 (Python `bool` is an `int`);
`TypeError` otherwise. -/
def pyToNum : Json → Py PyFloat
  | .num q => .ok q
  | .bool b => .ok (pf (if b then 1 else 0) 1)
  | _ => .error "TypeError: unsupported operand type"

/-- Python's `str()` of a decoded JSON value, as interpolated into the
f-strings of the validator.  Exact for the cases the validator's
messages exercise (strings, integers, booleans, `None`); the `repr` of
non-integral floats and of containers is approximated, since Python's
shortest-roundtrip float repr has no exact rational counterpart. -/
def pyStr : Json → String
  | .null => "None"
  | .bool true => "True"
  | .bool false => "False"
  | .num q => if q.den = 1 then toString q.num else toString q.num ++ "/" ++ toString q.den
  | .str s => s
  | .arr _ => "[...]"
  | .obj _ => "\x7b...\x7d"

/-- Python fixed-point formatting `%.{prec}f` of an exact fraction,
rounding half to even as Python does on the exact value being
formatted. -/
def formatFixed (prec : Nat) (q : PyFloat) : String :=
  let a : Int := q.num * (10 : Int) ^ prec
  let d : Int := q.den
  let n : Int := Int.fdiv a d
  let r : Int := a - n * d
  let m : Int :=
    if 2 * r < d then n
    else if d < 2 * r then n + 1
    else if n % 2 = 0 then n else n + 1
  let sign := if m < 0 then "-" else ""
  let absm := m.natAbs
  sign ++ toString (absm / 10 ^ prec) ++ "." ++
    String.mk (List.replicate (prec - (toString (absm % 10 ^ prec)).length) (Char.ofNat 48)) ++
    toString (absm % 10 ^ prec)

/-- `NTB_SELECTION_RADIUS = 0.6`, the fixed selection radius. -/
def NTB_SELECTION_RADIUS : PyFloat := pf 6 10

/-- `NTB_IDEAL_SIZE = 1.0`, the ideal model size. -/
def NTB_IDEAL_SIZE : PyFloat := pf 1 1

/-- `NTB_MAX_SIZE = 1.5`, the maximum recommended size (declared but
unused by the classifier). -/
def NTB_MAX_SIZE : PyFloat := pf 15 10

/-- A validation issue (class `ModelIssue` of the script). -/
structure ModelIssue where
  severity : String
  category : String
  message : String
  fix : Option String
deriving DecidableEq

/-- The per-material record `mat_info` built by the material check.
Optional entries model dict keys that are only sometimes set;
`hasTexture` is `true` exactly when the key is set (to `True`). -/
structure MatInfo where
  name : Json
  index : Nat
  baseColor : Option String
  hasTexture : Bool
  metallic : Option Json
  roughness : Option Json

/-- The per-accessor bounding-box record built by the geometry check. -/
structure BoundingBoxInfo where
  accessor : Nat
  min : Json
  max : Json
  size : List PyFloat
  max_dimension : PyFloat

/-- Results from validating a single model (class
`ModelValidationResult`).  The file-size field and the optional
`gltf-transform` report text are external I/O concerns (filesystem and
subprocess) and are not modelled. -/
structure ModelValidationResult where
  file_path : String
  materials : List MatInfo
  bounding_boxes : List BoundingBoxInfo
  max_dimension : PyFloat
  issues : List ModelIssue

/-- `ModelValidationResult.has_errors`. -/
def ModelValidationResult.has_errors (r : ModelValidationResult) : Bool :=
  r.issues.any (fun i => i.severity == "error")

/-- `ModelValidationResult.has_warnings`. -/
def ModelValidationResult.has_warnings (r : ModelValidationResult) : Bool :=
  r.issues.any (fun i => i.severity == "warning")

/-- `ModelValidationResult.is_healthy`. -/
def ModelValidationResult.is_healthy (r : ModelValidationResult) : Bool :=
  !r.has_errors && !r.has_warnings

/-- The threshold classifier of `validate_model` (the `if`/`elif` chain
applied to the aggregated `max_dim`, lines 188-201 of the script).  The
local `scale_factor = (NTB_IDEAL_SIZE / max_dim) if max_dim > 0 else 1.0`
of each branch is inlined at its use site; the arrow glyphs of the
Blender fix strings are rendered as ASCII `->`. -/
def scale_issues (max_dim : PyFloat) : List ModelIssue :=
  if PyFloat.lt (NTB_SELECTION_RADIUS.mul (pf 2 1)) max_dim then
    [⟨"error", "selection",
      "Model too large (" ++ formatFixed 2 max_dim ++ " units) for selection radius (0.6 units)",
      some ("In Blender: Select All (A) -> Scale (S) -> type " ++
        formatFixed 3
          (if PyFloat.lt (pf 0 1) max_dim then NTB_IDEAL_SIZE.div max_dim else pf 1 1) ++
        " -> Apply Scale (Ctrl+A)")⟩]
  else if PyFloat.lt NTB_IDEAL_SIZE max_dim then
    [⟨"warning", "scale",
      "Model larger than ideal (" ++ formatFixed 2 max_dim ++ " units > 1.0 units)",
      some ("Recommended: Scale by " ++
        formatFixed 3
          (if PyFloat.lt (pf 0 1) max_dim then NTB_IDEAL_SIZE.div max_dim else pf 1 1) ++
        " in Blender for better UX")⟩]
  else if PyFloat.lt max_dim (pf 3 10) then
    [⟨"warning", "scale",
      "Model very small (" ++ formatFixed 2 max_dim ++ " units) - may be hard to see",
      some "Consider scaling up in Blender"⟩]
  else []

/-- The display string `RGBA(r, g, b, a)` built from `baseColorFactor`
(the f-string of line 147): each of the four components is indexed and
formatted to two decimals, raising on a short list or a non-numeric
component exactly where Python would. -/
def rgba_string (color : Json) : Py String :=
  match pyIndexNat color 0 with
  | .error e => .error e
  | .ok c0 =>
    match pyToNum c0 with
    | .error e => .error e
    | .ok q0 =>
      match pyIndexNat color 1 with
      | .error e => .error e
      | .ok c1 =>
        match pyToNum c1 with
        | .error e => .error e
        | .ok q1 =>
          match pyIndexNat color 2 with
          | .error e => .error e
          | .ok c2 =>
            match pyToNum c2 with
            | .error e => .error e
            | .ok q2 =>
              match pyIndexNat color 3 with
              | .error e => .error e
              | .ok c3 =>
                match pyToNum c3 with
                | .error e => .error e
                | .ok q3 =>
                  .ok ("RGBA(" ++ formatFixed 2 q0 ++ ", " ++ formatFixed 2 q1 ++ ", " ++
                    formatFixed 2 q2 ++ ", " ++ formatFixed 2 q3 ++ ")")

/-- `mat.get('name', f'Material_{i}')`: the display name of the material
at list position `i`. -/
def material_name (i : Nat) (m : Json) : Json :=
  (m.lookup "name").getD (.str ("Material_" ++ toString i))

/-- The `material`/`error` issue emitted for a material with neither a
base-color factor nor a base-color texture (lines 161-164). -/
def material_issue (mat_name : Json) : ModelIssue :=
  ⟨"error", "material",
    "Material \"" ++ pyStr mat_name ++ "\" has no color or texture",
    some ("In Blender: Select material \"" ++ pyStr mat_name ++
      "\" -> Set Base Color in Principled BSDF")⟩

/-- The body of the material loop (lines 133-164) for one material at
list position `i`: builds the `mat_info` record and the optional
`material`/`error` issue. -/
def check_material (i : Nat) (mat : Json) : Py (MatInfo × Option ModelIssue) :=
  match mat with
  | .obj _ =>
    let mat_name := material_name i mat
    match mat.lookup "pbrMetallicRoughness" with
    | none =>
      .ok (⟨mat_name, i, none, false, none, none⟩, some (material_issue mat_name))
    | some pbr =>
      let colorPart : Py (Option String) :=
        match pyIn "baseColorFactor" pbr with
        | .error e => .error e
        | .ok false => .ok none
        | .ok true =>
          match pySubscriptKey pbr "baseColorFactor" with
          | .error e => .error e
          | .ok color =>
            match rgba_string color with
            | .error e => .error e
            | .ok s => .ok (some s)
      match colorPart with
      | .error e => .error e
      | .ok baseColor =>
        match pyIn "baseColorTexture" pbr with
        | .error e => .error e
        | .ok has_texture =>
          match pyGetD pbr "metallicFactor" (.num (pf 1 1)) with
          | .error e => .error e
          | .ok metallic =>
            match pyGetD pbr "roughnessFactor" (.num (pf 1 1)) with
            | .error e => .error e
            | .ok roughness =>
              .ok (⟨mat_name, i, baseColor, has_texture, some metallic, some roughness⟩,
                if baseColor.isSome || has_texture then none
                else some (material_issue mat_name))
  | _ => .error "AttributeError: object has no attribute get"

/-- The `material`/`error` issue for an absent or empty material list
(lines 130-131). -/
def no_materials_issue : ModelIssue :=
  ⟨"error", "material", "No materials found in model",
    some "In Blender: Ensure objects have materials assigned before export"⟩

/-- The material loop: processes materials in list order, appending every
record and collecting the per-material issues in discovery order. -/
def materials_loop : List Json → Nat → List MatInfo → List ModelIssue →
    Py (List MatInfo × List ModelIssue)
  | [], _, infos, issues => .ok (infos, issues)
  | m :: rest, i, infos, issues =>
    match check_material i m with
    | .error e => .error e
    | .ok (info, none) => materials_loop rest (i + 1) (infos ++ [info]) issues
    | .ok (info, some iss) => materials_loop rest (i + 1) (infos ++ [info]) (issues ++ [iss])

/-- The material stage of `validate_model` (lines 129-164). -/
def material_stage (j : Json) : Py (List MatInfo × List ModelIssue) :=
  match pyIn "materials" j with
  | .error e => .error e
  | .ok false => .ok ([], [no_materials_issue])
  | .ok true =>
    match pySubscriptKey j "materials" with
    | .error e => .error e
    | .ok matsJ =>
      match pyLen matsJ with
      | .error e => .error e
      | .ok n =>
        if n = 0 then .ok ([], [no_materials_issue])
        else
          match pyIter matsJ with
          | .error e => .error e
          | .ok mats => materials_loop mats 0 [] []

/-- One component of `size = [max_v[j] - min_v[j] for j in range(3)]`. -/
def sub_component (max_v min_v : Json) (jdx : Nat) : Py PyFloat :=
  match pyIndexNat max_v jdx with
  | .error e => .error e
  | .ok a =>
    match pyIndexNat min_v jdx with
    | .error e => .error e
    | .ok b =>
      match pyToNum a with
      | .error e => .error e
      | .ok qa =>
        match pyToNum b with
        | .error e => .error e
        | .ok qb => .ok (qa.sub qb)

/-- The body of the accessor loop (lines 170-183) for one accessor:
`ok none` means the accessor is skipped (the guard
`'min' in acc and 'max' in acc and len(acc['min']) == 3` failed);
`ok (some ...)` carries `min_v`, `max_v`, the per-axis sizes and the
accessor's maximum dimension.  Note that the script checks the length of
`min` only, so a well-formed `min` with a shorter `max` raises
`IndexError` here, exactly as in Python. -/
def check_accessor (acc : Json) : Py (Option (Json × Json × List PyFloat × PyFloat)) :=
  match pyIn "min" acc with
  | .error e => .error e
  | .ok false => .ok none
  | .ok true =>
    match pyIn "max" acc with
    | .error e => .error e
    | .ok false => .ok none
    | .ok true =>
      match pySubscriptKey acc "min" with
      | .error e => .error e
      | .ok minForLen =>
        match pyLen minForLen with
        | .error e => .error e
        | .ok n =>
          if n = 3 then
            match pySubscriptKey acc "min", pySubscriptKey acc "max" with
            | .ok min_v, .ok max_v =>
              match sub_component max_v min_v 0 with
              | .error e => .error e
              | .ok s0 =>
                match sub_component max_v min_v 1 with
                | .error e => .error e
                | .ok s1 =>
                  match sub_component max_v min_v 2 with
                  | .error e => .error e
                  | .ok s2 =>
                    .ok (some (min_v, max_v, [s0, s1, s2], (s0.pymax s1).pymax s2))
            | .error e, _ => .error e
            | _, .error e => .error e
          else .ok none

/-- The accessor loop: skips malformed accessors, otherwise appends a
bounding-box record and folds the running maximum dimension. -/
def bounds_loop : List Json → Nat → PyFloat → List BoundingBoxInfo →
    Py (PyFloat × List BoundingBoxInfo)
  | [], _, max_dim, boxes => .ok (max_dim, boxes)
  | acc :: rest, i, max_dim, boxes =>
    match check_accessor acc with
    | .error e => .error e
    | .ok none => bounds_loop rest (i + 1) max_dim boxes
    | .ok (some (min_v, max_v, size, bbox_max)) =>
      bounds_loop rest (i + 1) (max_dim.pymax bbox_max)
        (boxes ++ [⟨i, min_v, max_v, size, bbox_max⟩])

/-- The geometry-bounds stage of `validate_model` (lines 167-185): the
returned boolean records whether the `accessors` key was present — when
it is absent the whole block, including the threshold classification,
is skipped. -/
def bounds_stage (j : Json) : Py (PyFloat × List BoundingBoxInfo × Bool) :=
  match pyIn "accessors" j with
  | .error e => .error e
  | .ok false => .ok (pf 0 1, [], false)
  | .ok true =>
    match pySubscriptKey j "accessors" with
    | .error e => .error e
    | .ok accsJ =>
      match pyIter accsJ with
      | .error e => .error e
      | .ok accs =>
        match bounds_loop accs 0 (pf 0 1) [] with
        | .error e => .error e
        | .ok (max_dim, boxes) => .ok (max_dim, boxes, true)

/-- The single `structure`/`error` issue emitted when parsing fails
(line 125). -/
def structure_issue : ModelIssue :=
  ⟨"error", "structure", "Failed to parse GLB file - may be corrupted", none⟩

/-- `validate_model` on the outcome of `parse_glb_file` (lines 115-209,
without the two external-I/O steps: the file-size stat and the optional
`gltf-transform` subprocess, which contribute no issues).  The Python
test `if not json_data` treats both a parse failure (`None`) and a
truthiness-false document as the corrupted-file case. -/
def validate_model (file_path : String) (json_data : Option Json) : Py ModelValidationResult :=
  match json_data with
  | none => .ok ⟨file_path, [], [], pf 0 1, [structure_issue]⟩
  | some j =>
    if j.falsy then .ok ⟨file_path, [], [], pf 0 1, [structure_issue]⟩
    else
      match material_stage j with
      | .error e => .error e
      | .ok (infos, matIssues) =>
        match bounds_stage j with
        | .error e => .error e
        | .ok (max_dim, boxes, present) =>
          .ok ⟨file_path, infos, boxes, max_dim,
            matIssues ++ (if present then scale_issues max_dim else [])⟩

/-- Little-endian 32-bit read at byte offset `off`, modelling
`struct.unpack('I', f.read(4))`: `none` when fewer than four bytes are
available (in Python, `struct.error` — caught by `parse_glb_file`). -/
def readU32LE (bytes : List Nat) (off : Nat) : Option Nat :=
  match bytes.drop off with
  | b0 :: b1 :: b2 :: b3 :: _ => some (b0 + b1 * 256 + b2 * 65536 + b3 * 16777216)
  | _ => none

/-- The GLB magic number, `"glTF"` in ASCII. -/
def GLB_MAGIC : Nat := 0x46546C67

/-- `parse_glb_file` over the file's byte contents (lines 77-98): reads
the 12-byte header and the first chunk header, then hands the chunk
payload to `loads`, which abstracts the external UTF-8 decode plus
`json.loads` (`none` models any decode or parse exception).  Every
failure path returns `none` — nothing is raised to the caller. -/
def parse_glb_file (bytes : List Nat) (loads : List Nat → Option Json) : Option Json :=
  match readU32LE bytes 0 with
  | none => none
  | some magic =>
    if magic ≠ GLB_MAGIC then none
    else
      match readU32LE bytes 4, readU32LE bytes 8, readU32LE bytes 12, readU32LE bytes 16 with
      | some _version, some _length, some chunk_length, some _chunk_type =>
        loads ((bytes.drop 20).take chunk_length)
      | _, _, _, _ => none

/-- Validation of a list of files followed by the exit decision of
`main` (lines 364-384): missing files are skipped, and the exit code is
1 exactly when some produced result has an error-severity issue. -/
def run_validation_exit (file_exists : String → Bool)
    (validate : String → ModelValidationResult) (files : List String) : Nat :=
  if ((files.filter file_exists).map validate).any ModelValidationResult.has_errors then 1 else 0

/-- The exit-code logic of `main` (lines 354-384) over completed runs:
explicit arguments win over directory discovery; an empty discovery
result exits 1 before any validation; otherwise the exit reflects
error-severity issues only.  `validate` abstracts a completed per-file
validation. -/
def main_exit (args_files found_models : List String)
    (file_exists : String → Bool) (validate : String → ModelValidationResult) : Nat :=
  if args_files.isEmpty then
    if found_models.isEmpty then 1
    else run_validation_exit file_exists validate found_models
  else run_validation_exit file_exists validate args_files

/-- A JSON value that Python numeric coercion accepts (a number, or a
boolean, which is an `int` in Python). -/
def numlike : Json → Bool
  | .num _ => true
  | .bool _ => true
  | _ => false

/-- Claim-side predicate: the material dict declares a base-color factor
(a `baseColorFactor` key inside its `pbrMetallicRoughness` dict). -/
def declares_base_color (m : Json) : Bool :=
  match m.lookup "pbrMetallicRoughness" with
  | some pbr => (pbr.lookup "baseColorFactor").isSome
  | none => false

/-- Claim-side predicate: the material dict declares a base-color
texture reference. -/
def declares_base_texture (m : Json) : Bool :=
  match m.lookup "pbrMetallicRoughness" with
  | some pbr => (pbr.lookup "baseColorTexture").isSome
  | none => false

/-- A material entry of the shape the glTF format prescribes: a dict
whose `pbrMetallicRoughness`, if present, is a dict, and whose
`baseColorFactor`, if present, is a list of at least four numeric
channels (so that the material check completes without a Python
exception; claim C7 treats the shapes that raise). -/
def WellShapedMaterial : Json → Bool
  | .obj fs =>
    (match List.lookup "pbrMetallicRoughness" fs with
     | none => true
     | some (.obj pfs) =>
       (match List.lookup "baseColorFactor" pfs with
        | none => true
        | some (.arr cs) => decide (4 ≤ cs.length) && cs.all numlike
        | some _ => false)
     | some _ => false)
  | _ => false

/-- Claim-side characterisation of the material stage's issue stream:
one `material`/`error` issue per material that declares neither a
base-color factor nor a base-color texture, in list order, naming that
material. -/
def expected_material_issues (i : Nat) : List Json → List ModelIssue
  | [] => []
  | m :: rest =>
    (if declares_base_color m || declares_base_texture m then []
     else [material_issue (material_name i m)]) ++
    expected_material_issues (i + 1) rest

/-! ### Helper lemmas -/

lemma scale_issues_mem (d : PyFloat) (iss : ModelIssue) (h : iss ∈ scale_issues d) :
    (iss.severity = "error" ∨ iss.severity = "warning") ∧
    (iss.category = "selection" ∨ iss.category = "scale") := by
  unfold scale_issues at h
  split_ifs at h <;> simp_all

lemma check_material_issue_fields (i : Nat) (m : Json) (info : MatInfo) (iss : ModelIssue)
    (h : check_material i m = .ok (info, some iss)) :
    iss.severity = "error" ∧ iss.category = "material" := by
  unfold check_material at h
  repeat' split at h
  all_goals
    first
      | exact Except.noConfusion h
      | (injection h with h
         injection h with hinfo hiss
         (try split at hiss) <;>
           first
             | exact Option.noConfusion hiss
             | (injection hiss with hiss
                subst hiss
                exact ⟨rfl, rfl⟩))

lemma materials_loop_issue_fields :
    ∀ (ms : List Json) (i : Nat) (infos : List MatInfo) (issues0 : List ModelIssue),
    (∀ iss ∈ issues0, iss.severity = "error" ∧ iss.category = "material") →
    ∀ infos' issues', materials_loop ms i infos issues0 = .ok (infos', issues') →
    ∀ iss ∈ issues', iss.severity = "error" ∧ iss.category = "material" := by
  intro ms
  induction ms with
  | nil =>
    intro i infos issues0 h0 infos' issues' hok
    unfold materials_loop at hok
    injection hok with hok
    injection hok with h1 h2
    subst h2
    exact h0
  | cons m rest ih =>
    intro i infos issues0 h0 infos' issues' hok
    unfold materials_loop at hok
    cases hcm : check_material i m with
    | error e => rw [hcm] at hok; simp at hok
    | ok p =>
      obtain ⟨info, oiss⟩ := p
      rw [hcm] at hok
      cases oiss with
      | none => exact ih (i + 1) (infos ++ [info]) issues0 h0 infos' issues' hok
      | some iss1 =>
        refine ih (i + 1) (infos ++ [info]) (issues0 ++ [iss1]) ?_ infos' issues' hok
        intro iss2 hmem
        rcases List.mem_append.mp hmem with h1 | h1
        · exact h0 iss2 h1
        · simp at h1
          subst h1
          exact check_material_issue_fields i m info iss2 hcm

lemma material_stage_issue_fields (j : Json) (infos : List MatInfo) (issues : List ModelIssue)
    (h : material_stage j = .ok (infos, issues)) :
    ∀ iss ∈ issues, iss.severity = "error" ∧ iss.category = "material" := by
  unfold material_stage at h
  repeat' split at h
  all_goals first
    | exact Except.noConfusion h
    | (injection h with h
       injection h with h1 h2
       subst h2
       intro iss hm
       simp only [List.mem_singleton] at hm
       subst hm
       exact ⟨rfl, rfl⟩)
    | exact materials_loop_issue_fields _ 0 [] [] (by intro iss hm; simp at hm) infos issues h

lemma readU32LE_none_of_short (bytes : List Nat) (off : Nat) (h : bytes.length < off + 4) :
    readU32LE bytes off = none := by
  have hlen : (bytes.drop off).length < 4 := by
    rw [List.length_drop]; omega
  unfold readU32LE
  cases h0 : bytes.drop off with
  | nil => rfl
  | cons b0 t0 =>
    rw [h0] at hlen
    cases t0 with
    | nil => rfl
    | cons b1 t1 =>
      cases t1 with
      | nil => rfl
      | cons b2 t2 =>
        cases t2 with
        | nil => rfl
        | cons b3 t3 =>
          exact absurd hlen (by simp only [List.length_cons]; omega)

lemma run_validation_exit_eq_one (file_exists : String → Bool)
    (validate : String → ModelValidationResult) (files : List String) :
    run_validation_exit file_exists validate files = 1 ↔
      ∃ r ∈ (files.filter file_exists).map validate,
        ∃ iss ∈ r.issues, iss.severity = "error" := by
  unfold run_validation_exit ModelValidationResult.has_errors
  split_ifs with h
  · simp only [List.any_eq_true, beq_iff_eq] at h
    simpa using h
  · simp only [List.any_eq_true, beq_iff_eq] at h
    simpa using h

/-! ### Claim theorems -/

/-- C6: the classifier boundaries are exclusive.  At `D = 1.2` exactly
(computed as `2 * NTB_SELECTION_RADIUS` with `NTB_SELECTION_RADIUS =
0.6`), the strict `>` does not trigger the `selection` error, but the
`scale` warning fires; at `D = 1.0` exactly and at `D = 0.3` exactly no
issue is emitted. -/
theorem C6_boundary_values :
    scale_issues (NTB_SELECTION_RADIUS.mul (pf 2 1)) =
      [⟨"warning", "scale", "Model larger than ideal (1.20 units > 1.0 units)",
        some "Recommended: Scale by 0.833 in Blender for better UX"⟩] ∧
    scale_issues NTB_IDEAL_SIZE = [] ∧
    scale_issues (pf 3 10) = [] :=
  ⟨rfl, rfl, rfl⟩

/-- C1 counterexample: the claim states that for `D < 0.3` the
`warning`/`scale` issue's remediation hint is "scale by `0.5 / D`"; at
the concrete input `D = 0.1` that factor is `5`, yet the emitted hint is
the fixed text "Consider scaling up in Blender", which contains no digit
at all, hence no scale factor. -/
theorem C1_counterexample :
    scale_issues (pf 1 10) =
      [⟨"warning", "scale", "Model very small (0.10 units) - may be hard to see",
        some "Consider scaling up in Blender"⟩] ∧
    "Consider scaling up in Blender".toList.all (fun c => !c.isDigit) = true :=
  ⟨rfl, by decide⟩

/-- C3: the claim (and the spec) say an accessor is counted only when
both `min` and `max` have exactly 3 components and that malformed
descriptors are skipped silently; the code checks `len(acc['min']) == 3`
only, so an accessor with a 3-component `min` and a 2-component `max`
raises an uncaught `IndexError` instead of being skipped — the code
contradicts the documented intent. -/
theorem C3_short_max_raises :
    validate_model "box.glb"
      (some (Json.obj [("accessors", Json.arr
        [Json.obj
          [("min", Json.arr [Json.num (pf 0 1), Json.num (pf 0 1), Json.num (pf 0 1)]),
           ("max", Json.arr [Json.num (pf 1 1), Json.num (pf 1 1)])]])])) =
      .error "IndexError: list index out of range" := rfl

/-- C7: the claim says per-file validation never raises, including for a
material whose base-color factor has fewer than 4 components; but the
f-string of line 147 indexes `color[3]`, so a 3-component
`baseColorFactor` raises an uncaught `IndexError` out of
`validate_model` (and `main` has no try/except around the per-file
loop, so the run aborts). -/
theorem C7_short_base_color_raises :
    validate_model "mat.glb"
      (some (Json.obj [("materials", Json.arr
        [Json.obj [("pbrMetallicRoughness", Json.obj
          [("baseColorFactor",
            Json.arr [Json.num (pf 1 2), Json.num (pf 1 2), Json.num (pf 1 2)])])]])])) =
      .error "IndexError: list index out of range" := rfl

/-- C2 counterexample: a document whose `accessors` list is present but
contains no bounds-bearing accessor has aggregated maximum dimension 0.0,
yet — contrary to the claim — a `warning`/`scale` issue ("Model very
small (0.00 units)") is raised, because the classifier runs whenever the
`accessors` key exists and `0.0 < 0.3`. -/
theorem C2_counterexample :
    validate_model "m.glb" (some (Json.obj [("accessors", Json.arr [])])) =
      .ok ⟨"m.glb", [], [], pf 0 1,
        [no_materials_issue,
         ⟨"warning", "scale", "Model very small (0.00 units) - may be hard to see",
          some "Consider scaling up in Blender"⟩]⟩ := rfl

/-- C10: a container that parses successfully but whose metadata chunk
decodes to a truthiness-false JSON document (such as `0`, `[]`, or the
empty object) is handled by `if not json_data` exactly like a parse
failure: the result carries the single `structure`/`error` issue, empty
material and bounds lists, maximum dimension 0.0, and no later stage
runs. -/
theorem C10_falsy_document (bytes : List Nat) (loads : List Nat → Option Json)
    (path : String) (j : Json)
    (hparse : parse_glb_file bytes loads = some j) (hfalsy : j.falsy = true) :
    validate_model path (some j) =
      .ok ⟨path, [], [], pf 0 1,
        [⟨"error", "structure", "Failed to parse GLB file - may be corrupted", none⟩]⟩ := by
  unfold validate_model
  simp only [hfalsy, if_true]
  rfl

/-- Witness for C10 at a concrete container: a well-formed header (magic
`glTF`, zero-length chunk) whose chunk decodes to the empty object. -/
theorem C10_witness :
    validate_model "empty.glb" (some (Json.obj [])) =
      .ok ⟨"empty.glb", [], [], pf 0 1,
        [⟨"error", "structure", "Failed to parse GLB file - may be corrupted", none⟩]⟩ := by
  have hp : parse_glb_file ([0x67, 0x6C, 0x54, 0x46] ++ List.replicate 16 0)
      (fun _ => some (Json.obj [])) = some (Json.obj []) := rfl
  exact C10_falsy_document ([0x67, 0x6C, 0x54, 0x46] ++ List.replicate 16 0)
    (fun _ => some (Json.obj [])) "empty.glb" (Json.obj []) hp rfl

/-- C4: on a magic-number mismatch, a truncated header, or any failure
of the metadata decode/parse, `parse_glb_file` yields no document
(returning `none` instead of raising), and the validation result then
carries exactly one `structure`/`error` issue, empty material and
bounds lists, maximum dimension 0.0, and nothing from any later
stage. -/
theorem C4_parse_failure (bytes : List Nat) (loads : List Nat → Option Json) (path : String)
    (h : readU32LE bytes 0 ≠ some GLB_MAGIC ∨ bytes.length < 20 ∨ ∀ p, loads p = none) :
    parse_glb_file bytes loads = none ∧
    validate_model path (parse_glb_file bytes loads) =
      .ok ⟨path, [], [], pf 0 1,
        [⟨"error", "structure", "Failed to parse GLB file - may be corrupted", none⟩]⟩ := by
  have hnone : parse_glb_file bytes loads = none := by
    rcases h with h | h | h
    · unfold parse_glb_file
      split
      · rfl
      · rename_i magic heq
        rw [heq] at h
        exact if_pos (fun hmm => h (by rw [hmm]))
    · have h16 : readU32LE bytes 16 = none := readU32LE_none_of_short bytes 16 (by omega)
      unfold parse_glb_file
      split
      · rfl
      · rename_i magic heq
        by_cases hm : magic ≠ GLB_MAGIC
        · exact if_pos hm
        · rw [if_neg hm, h16]
          cases readU32LE bytes 4 <;> cases readU32LE bytes 8 <;>
            cases readU32LE bytes 12 <;> rfl
    · unfold parse_glb_file
      split
      · rfl
      · rename_i magic heq
        by_cases hm : magic ≠ GLB_MAGIC
        · exact if_pos hm
        · rw [if_neg hm]
          cases readU32LE bytes 4 <;> cases readU32LE bytes 8 <;>
            cases readU32LE bytes 12 <;> cases readU32LE bytes 16 <;>
            first | rfl | exact h _
  exact ⟨hnone, by rw [hnone]; rfl⟩

/-- Witness for C4 at a concrete input: a four-byte file whose magic
word is zero, with a decoder that always fails. -/
theorem C4_witness :
    parse_glb_file [0, 0, 0, 0] (fun _ => none) = none ∧
    validate_model "bad.glb" (parse_glb_file [0, 0, 0, 0] (fun _ => none)) =
      .ok ⟨"bad.glb", [], [], pf 0 1,
        [⟨"error", "structure", "Failed to parse GLB file - may be corrupted", none⟩]⟩ := by
  have hm : readU32LE [0, 0, 0, 0] 0 ≠ some GLB_MAGIC := by decide
  exact C4_parse_failure [0, 0, 0, 0] (fun _ => none) "bad.glb" (Or.inl hm)

/-- C8: the process exit signal is 1 exactly when some processed file's
result contains an error-severity issue, or when no explicit files were
given and directory discovery found nothing; in every other case it is
0 — warning-severity issues never influence the exit code. -/
theorem C8_exit_code (args_files found_models : List String)
    (file_exists : String → Bool) (validate : String → ModelValidationResult) :
    (main_exit args_files found_models file_exists validate = 1 ↔
      ((args_files = [] ∧ found_models = []) ∨
        ∃ r ∈ ((if args_files = [] then found_models else args_files).filter
            file_exists).map validate,
          ∃ iss ∈ r.issues, iss.severity = "error")) ∧
    (main_exit args_files found_models file_exists validate = 0 ∨
      main_exit args_files found_models file_exists validate = 1) := by
  constructor
  · unfold main_exit
    by_cases h1 : args_files = []
    · have hb1 : args_files.isEmpty = true := by simp [h1]
      by_cases h2 : found_models = []
      · have hb2 : found_models.isEmpty = true := by simp [h2]
        rw [if_pos hb1, if_pos hb2]
        simp [h1, h2]
      · have hb2 : ¬ (found_models.isEmpty = true) := by simp [List.isEmpty_iff, h2]
        rw [if_pos hb1, if_neg hb2, run_validation_exit_eq_one]
        simp [h1, h2]
    · have hb1 : ¬ (args_files.isEmpty = true) := by simp [List.isEmpty_iff, h1]
      rw [if_neg hb1, run_validation_exit_eq_one]
      simp [h1]
  · unfold main_exit run_validation_exit
    split_ifs <;> simp

/-- C9: every result produced by a completed `validate_model` run
carries only issues of severity error or warning (never info), so a
file whose `is_healthy()` is true (no errors and no warnings) has no
issues of any severity. -/
theorem C9_severity_invariant (path : String) (parsed : Option Json)
    (res : ModelValidationResult)
    (hok : validate_model path parsed = .ok res) :
    (∀ iss ∈ res.issues, iss.severity = "error" ∨ iss.severity = "warning") ∧
    (res.is_healthy = true → res.issues = []) := by
  have hsev : ∀ iss ∈ res.issues, iss.severity = "error" ∨ iss.severity = "warning" := by
    cases parsed with
    | none =>
      simp only [validate_model] at hok
      injection hok with hok
      subst hok
      intro iss hm
      simp only [List.mem_singleton] at hm
      subst hm
      exact Or.inl rfl
    | some j =>
      simp only [validate_model] at hok
      split at hok
      · injection hok with hok
        subst hok
        intro iss hm
        simp only [List.mem_singleton] at hm
        subst hm
        exact Or.inl rfl
      · cases hms : material_stage j with
        | error e => rw [hms] at hok; exact Except.noConfusion hok
        | ok p =>
          obtain ⟨infos, matIssues⟩ := p
          rw [hms] at hok
          cases hbs : bounds_stage j with
          | error e => rw [hbs] at hok; exact Except.noConfusion hok
          | ok q =>
            obtain ⟨max_dim, boxes, present⟩ := q
            rw [hbs] at hok
            injection hok with hok
            subst hok
            intro iss hm
            simp only [List.mem_append] at hm
            rcases hm with hm | hm
            · exact Or.inl (material_stage_issue_fields j infos matIssues hms iss hm).1
            · split at hm
              · exact (scale_issues_mem max_dim iss hm).1
              · exact absurd hm (List.not_mem_nil iss)
  refine ⟨hsev, ?_⟩
  intro hh
  cases hi : res.issues with
  | nil => rfl
  | cons a t =>
    exfalso
    have ha := hsev a (by rw [hi]; exact List.mem_cons_self a t)
    have hhe : res.has_errors = false ∧ res.has_warnings = false := by
      unfold ModelValidationResult.is_healthy at hh
      constructor
      · cases he : res.has_errors
        · rfl
        · rw [he] at hh; simp at hh
      · cases hw : res.has_warnings
        · rfl
        · rw [hw] at hh; simp at hh
    rcases ha with ha | ha
    · have : res.has_errors = true := by
        unfold ModelValidationResult.has_errors
        rw [hi]
        simp [List.any_cons, ha]
      rw [this] at hhe
      exact Bool.noConfusion hhe.1
    · have : res.has_warnings = true := by
        unfold ModelValidationResult.has_warnings
        rw [hi]
        simp [List.any_cons, ha]
      rw [this] at hhe
      exact Bool.noConfusion hhe.2

/-- Witness for C9 at a concrete run: the parse-failure result. -/
theorem C9_witness :
    (∀ iss ∈ (⟨"w.glb", [], [], pf 0 1, [structure_issue]⟩ : ModelValidationResult).issues,
      iss.severity = "error" ∨ iss.severity = "warning") ∧
    ((⟨"w.glb", [], [], pf 0 1, [structure_issue]⟩ : ModelValidationResult).is_healthy = true →
      (⟨"w.glb", [], [], pf 0 1, [structure_issue]⟩ : ModelValidationResult).issues = []) := by
  have hok : validate_model "w.glb" none =
      .ok ⟨"w.glb", [], [], pf 0 1, [structure_issue]⟩ := rfl
  exact C9_severity_invariant "w.glb" none _ hok

/-- C1 (amended): the classifier is a pure function of the aggregated
maximum dimension `D` emitting at most one issue by first matching rule:
`D > 1.2` gives the `error`/`selection` issue whose hint contains the
scale factor `NTB_IDEAL_SIZE / D`; else `D > 1.0` gives the
`warning`/`scale` issue with the same scale factor; else `D < 0.3`
gives a `warning`/`scale` issue whose hint is the fixed text
"Consider scaling up in Blender" (no scale factor); otherwise
(`0.3 ≤ D ≤ 1.0`) no issue. -/
theorem C1_amended (D : PyFloat) (h0 : PyFloat.le (pf 0 1) D) :
    (scale_issues D).length ≤ 1 ∧
    (PyFloat.lt (NTB_SELECTION_RADIUS.mul (pf 2 1)) D →
      scale_issues D = [⟨"error", "selection",
        "Model too large (" ++ formatFixed 2 D ++ " units) for selection radius (0.6 units)",
        some ("In Blender: Select All (A) -> Scale (S) -> type " ++
          formatFixed 3 (NTB_IDEAL_SIZE.div D) ++ " -> Apply Scale (Ctrl+A)")⟩]) ∧
    (¬ PyFloat.lt (NTB_SELECTION_RADIUS.mul (pf 2 1)) D → PyFloat.lt NTB_IDEAL_SIZE D →
      scale_issues D = [⟨"warning", "scale",
        "Model larger than ideal (" ++ formatFixed 2 D ++ " units > 1.0 units)",
        some ("Recommended: Scale by " ++ formatFixed 3 (NTB_IDEAL_SIZE.div D) ++
          " in Blender for better UX")⟩]) ∧
    (PyFloat.lt D (pf 3 10) →
      scale_issues D = [⟨"warning", "scale",
        "Model very small (" ++ formatFixed 2 D ++ " units) - may be hard to see",
        some "Consider scaling up in Blender"⟩]) ∧
    (PyFloat.le (pf 3 10) D → PyFloat.le D NTB_IDEAL_SIZE → scale_issues D = []) := by
  obtain ⟨n, d, hd⟩ := D
  have hn0 : (0 : Int) ≤ n := by
    have h0' : 0 * d ≤ n * 1 := h0
    omega
  refine ⟨?_, ?_, ?_, ?_, ?_⟩
  · unfold scale_issues
    split_ifs <;> simp
  · intro h1
    have h1' : 12 * d < n * 10 := h1
    have hpos : PyFloat.lt (pf 0 1) ⟨n, d, hd⟩ := show 0 * d < n * 1 by omega
    unfold scale_issues
    rw [if_pos h1, if_pos hpos]
  · intro hn1 h2
    have h2' : 1 * d < n * 1 := h2
    have hpos : PyFloat.lt (pf 0 1) ⟨n, d, hd⟩ := show 0 * d < n * 1 by omega
    unfold scale_issues
    rw [if_neg hn1, if_pos h2, if_pos hpos]
  · intro h3
    have h3' : n * 10 < 3 * d := h3
    have hn1 : ¬ PyFloat.lt (NTB_SELECTION_RADIUS.mul (pf 2 1)) ⟨n, d, hd⟩ := by
      intro hcon
      have : 12 * d < n * 10 := hcon
      omega
    have hn2 : ¬ PyFloat.lt NTB_IDEAL_SIZE ⟨n, d, hd⟩ := by
      intro hcon
      have : 1 * d < n * 1 := hcon
      omega
    unfold scale_issues
    rw [if_neg hn1, if_neg hn2, if_pos h3]
  · intro h4 h5
    have h4' : 3 * d ≤ n * 10 := h4
    have h5' : n * 1 ≤ 1 * d := h5
    have hn1 : ¬ PyFloat.lt (NTB_SELECTION_RADIUS.mul (pf 2 1)) ⟨n, d, hd⟩ := by
      intro hcon
      have : 12 * d < n * 10 := hcon
      omega
    have hn2 : ¬ PyFloat.lt NTB_IDEAL_SIZE ⟨n, d, hd⟩ := by
      intro hcon
      have : 1 * d < n * 1 := hcon
      omega
    have hn3 : ¬ PyFloat.lt ⟨n, d, hd⟩ (pf 3 10) := by
      intro hcon
      have : n * 10 < 3 * d := hcon
      omega
    unfold scale_issues
    rw [if_neg hn1, if_neg hn2, if_neg hn3]

/-- Witness for C1 (amended) at the concrete input `D = 2`: the
`selection` error fires with scale factor `1 / 2` formatted as
`0.500`. -/
theorem C1_amended_witness :
    PyFloat.le (pf 0 1) (pf 2 1) ∧
    scale_issues (pf 2 1) =
      [⟨"error", "selection", "Model too large (2.00 units) for selection radius (0.6 units)",
        some "In Blender: Select All (A) -> Scale (S) -> type 0.500 -> Apply Scale (Ctrl+A)"⟩] := by
  refine ⟨by decide, ?_⟩
  have h := (C1_amended (pf 2 1) (by decide)).2.1 (by decide)
  rw [h]
  rfl

lemma bounds_loop_skip (accs : List Json) :
    ∀ (i : Nat) (max_dim : PyFloat) (boxes : List BoundingBoxInfo),
    (∀ acc ∈ accs, check_accessor acc = Except.ok none) →
    bounds_loop accs i max_dim boxes = .ok (max_dim, boxes) := by
  induction accs with
  | nil => intro i max_dim boxes _; rfl
  | cons a t ih =>
    intro i max_dim boxes h
    have ha : check_accessor a = Except.ok none := h a (List.mem_cons_self a t)
    simp only [bounds_loop, ha]
    exact ih (i + 1) max_dim boxes (fun acc hm => h acc (List.mem_cons_of_mem a hm))

/-- C2 (amended): if the document lacks the `accessors` key entirely,
the aggregated maximum dimension stays 0.0 and no `scale`- or
`selection`-category issue is raised; but if the `accessors` key is
present (as a list) while no accessor is bounds-bearing, the maximum
dimension is still 0.0 and a `warning`/`scale` "Model very small"
issue IS raised, because the classifier runs and `0.0 < 0.3`. -/
theorem C2_amended (fs : List (String × Json)) (path : String) (res : ModelValidationResult)
    (hfalsy : (Json.obj fs).falsy = false)
    (hok : validate_model path (some (Json.obj fs)) = .ok res) :
    (List.lookup "accessors" fs = none →
      res.max_dimension = pf 0 1 ∧ res.bounding_boxes = [] ∧
      res.issues.all
        (fun iss => !(iss.category == "scale") && !(iss.category == "selection")) = true) ∧
    (∀ accs, List.lookup "accessors" fs = some (Json.arr accs) →
      (∀ acc ∈ accs, check_accessor acc = Except.ok none) →
      res.max_dimension = pf 0 1 ∧
      (⟨"warning", "scale", "Model very small (0.00 units) - may be hard to see",
        some "Consider scaling up in Blender"⟩ : ModelIssue) ∈ res.issues) := by
  simp only [validate_model, hfalsy, Bool.false_eq_true, if_false] at hok
  cases hms : material_stage (Json.obj fs) with
  | error e => rw [hms] at hok; exact Except.noConfusion hok
  | ok p =>
    obtain ⟨infos, matIssues⟩ := p
    rw [hms] at hok
    constructor
    · intro hnone
      have hb : bounds_stage (Json.obj fs) = .ok (pf 0 1, [], false) := by
        simp only [bounds_stage, pyIn, hnone, Option.isSome_none]
      rw [hb] at hok
      injection hok with hok
      subst hok
      refine ⟨rfl, rfl, ?_⟩
      rw [List.all_eq_true]
      intro iss hm
      simp only [Bool.false_eq_true, if_false, List.append_nil] at hm
      have hcat := (material_stage_issue_fields _ _ _ hms iss hm).2
      rw [hcat]
      rfl
    · intro accs haccs hskip
      have hpyIn : pyIn "accessors" (Json.obj fs) = .ok true := by
        simp [pyIn, haccs]
      have hsub : pySubscriptKey (Json.obj fs) "accessors" = .ok (Json.arr accs) := by
        simp [pySubscriptKey, haccs]
      have hloop := bounds_loop_skip accs 0 (pf 0 1) [] hskip
      have hb : bounds_stage (Json.obj fs) = .ok (pf 0 1, [], true) := by
        simp only [bounds_stage, hpyIn, hsub, pyIter, hloop]
      rw [hb] at hok
      injection hok with hok
      subst hok
      refine ⟨rfl, ?_⟩
      have hsc : (if (true = true) then scale_issues (pf 0 1) else []) =
          [⟨"warning", "scale", "Model very small (0.00 units) - may be hard to see",
            some "Consider scaling up in Blender"⟩] := rfl
      rw [hsc]
      exact List.mem_append_right _ (List.mem_singleton_self _)

/-- Witness for C2 (amended), applying the theorem at two concrete
documents: one without any `accessors` key, and one whose `accessors`
list holds a single accessor with no bounds. -/
theorem C2_amended_witness :
    ((⟨"a.glb", [], [], pf 0 1, [no_materials_issue]⟩ : ModelValidationResult).max_dimension =
        pf 0 1 ∧
      (⟨"a.glb", [], [], pf 0 1, [no_materials_issue]⟩ : ModelValidationResult).bounding_boxes =
        [] ∧
      (⟨"a.glb", [], [], pf 0 1, [no_materials_issue]⟩ : ModelValidationResult).issues.all
        (fun iss => !(iss.category == "scale") && !(iss.category == "selection")) = true) ∧
    ((⟨"b.glb", [], [], pf 0 1,
        [no_materials_issue,
         ⟨"warning", "scale", "Model very small (0.00 units) - may be hard to see",
          some "Consider scaling up in Blender"⟩]⟩ : ModelValidationResult).max_dimension =
        pf 0 1 ∧
      (⟨"warning", "scale", "Model very small (0.00 units) - may be hard to see",
        some "Consider scaling up in Blender"⟩ : ModelIssue) ∈
        (⟨"b.glb", [], [], pf 0 1,
          [no_materials_issue,
           ⟨"warning", "scale", "Model very small (0.00 units) - may be hard to see",
            some "Consider scaling up in Blender"⟩]⟩ : ModelValidationResult).issues) := by
  constructor
  · have hok : validate_model "a.glb" (some (Json.obj [("x", Json.num (pf 1 1))])) =
        .ok ⟨"a.glb", [], [], pf 0 1, [no_materials_issue]⟩ := rfl
    exact (C2_amended [("x", Json.num (pf 1 1))] "a.glb" _ rfl hok).1 rfl
  · have hok : validate_model "b.glb" (some (Json.obj [("accessors", Json.arr [Json.obj []])])) =
        .ok ⟨"b.glb", [], [], pf 0 1,
          [no_materials_issue,
           ⟨"warning", "scale", "Model very small (0.00 units) - may be hard to see",
            some "Consider scaling up in Blender"⟩]⟩ := rfl
    refine (C2_amended [("accessors", Json.arr [Json.obj []])] "b.glb" _ rfl hok).2
      [Json.obj []] rfl ?_
    intro acc hm
    simp only [List.mem_singleton] at hm
    subst hm
    rfl

lemma pyToNum_of_numlike (c : Json) (h : numlike c = true) : ∃ q, pyToNum c = .ok q := by
  cases c with
  | num q => exact ⟨q, rfl⟩
  | bool b => exact ⟨pf (if b then 1 else 0) 1, rfl⟩
  | null => simp [numlike] at h
  | str s => simp [numlike] at h
  | arr xs => simp [numlike] at h
  | obj fs => simp [numlike] at h

lemma rgba_string_ok (cs : List Json) (h4 : 4 ≤ cs.length) (hn : cs.all numlike = true) :
    ∃ s, rgba_string (Json.arr cs) = .ok s := by
  match cs with
  | [] => simp only [List.length_nil] at h4; omega
  | [c0] => simp only [List.length_cons, List.length_nil] at h4; omega
  | [c0, c1] => simp only [List.length_cons, List.length_nil] at h4; omega
  | [c0, c1, c2] => simp only [List.length_cons, List.length_nil] at h4; omega
  | c0 :: c1 :: c2 :: c3 :: rest =>
    simp only [List.all_cons, Bool.and_eq_true] at hn
    obtain ⟨h0, h1, h2, h3, -⟩ := hn
    obtain ⟨q0, e0⟩ := pyToNum_of_numlike c0 h0
    obtain ⟨q1, e1⟩ := pyToNum_of_numlike c1 h1
    obtain ⟨q2, e2⟩ := pyToNum_of_numlike c2 h2
    obtain ⟨q3, e3⟩ := pyToNum_of_numlike c3 h3
    have i0 : pyIndexNat (Json.arr (c0 :: c1 :: c2 :: c3 :: rest)) 0 = .ok c0 := rfl
    have i1 : pyIndexNat (Json.arr (c0 :: c1 :: c2 :: c3 :: rest)) 1 = .ok c1 := rfl
    have i2 : pyIndexNat (Json.arr (c0 :: c1 :: c2 :: c3 :: rest)) 2 = .ok c2 := rfl
    have i3 : pyIndexNat (Json.arr (c0 :: c1 :: c2 :: c3 :: rest)) 3 = .ok c3 := rfl
    refine ⟨"RGBA(" ++ formatFixed 2 q0 ++ ", " ++ formatFixed 2 q1 ++ ", " ++
      formatFixed 2 q2 ++ ", " ++ formatFixed 2 q3 ++ ")", ?_⟩
    simp only [rgba_string, i0, i1, i2, i3, e0, e1, e2, e3]

lemma check_material_spec (i : Nat) (m : Json) (hws : WellShapedMaterial m = true) :
    ∃ name bc tex met rough,
      check_material i m = .ok ((⟨name, i, bc, tex, met, rough⟩ : MatInfo),
        if declares_base_color m || declares_base_texture m then none
        else some (material_issue (material_name i m))) := by
  cases m with
  | null => simp [WellShapedMaterial] at hws
  | bool b => simp [WellShapedMaterial] at hws
  | num q => simp [WellShapedMaterial] at hws
  | str s => simp [WellShapedMaterial] at hws
  | arr xs => simp [WellShapedMaterial] at hws
  | obj fs =>
    cases hpbr : List.lookup "pbrMetallicRoughness" fs with
    | none =>
      refine ⟨material_name i (Json.obj fs), none, false, none, none, ?_⟩
      have hdc : declares_base_color (Json.obj fs) = false := by
        simp [declares_base_color, Json.lookup, hpbr]
      have hdt : declares_base_texture (Json.obj fs) = false := by
        simp [declares_base_texture, Json.lookup, hpbr]
      rw [hdc, hdt]
      simp only [check_material, Json.lookup, hpbr, Bool.or_self, Bool.false_eq_true, if_false]
    | some pbr =>
      have hdc : declares_base_color (Json.obj fs) =
          (pbr.lookup "baseColorFactor").isSome := by
        simp [declares_base_color, Json.lookup, hpbr]
      have hdt : declares_base_texture (Json.obj fs) =
          (pbr.lookup "baseColorTexture").isSome := by
        simp [declares_base_texture, Json.lookup, hpbr]
      cases pbr with
      | null => simp [WellShapedMaterial, hpbr] at hws
      | bool b => simp [WellShapedMaterial, hpbr] at hws
      | num q => simp [WellShapedMaterial, hpbr] at hws
      | str s => simp [WellShapedMaterial, hpbr] at hws
      | arr xs => simp [WellShapedMaterial, hpbr] at hws
      | obj pfs =>
        cases hbc : List.lookup "baseColorFactor" pfs with
        | none =>
          refine ⟨material_name i (Json.obj fs), none,
            (List.lookup "baseColorTexture" pfs).isSome,
            some ((List.lookup "metallicFactor" pfs).getD (Json.num (pf 1 1))),
            some ((List.lookup "roughnessFactor" pfs).getD (Json.num (pf 1 1))), ?_⟩
          rw [hdc, hdt]
          simp only [check_material, Json.lookup, hpbr, pyIn, hbc, Option.isSome_none,
            pyGetD, Bool.false_or]
        | some c =>
          have hwsc := hws
          simp only [WellShapedMaterial, hpbr, hbc] at hwsc
          cases c with
          | null => simp at hwsc
          | bool b => simp at hwsc
          | num q => simp at hwsc
          | str s => simp at hwsc
          | obj ofs => simp at hwsc
          | arr cs =>
            rw [Bool.and_eq_true, decide_eq_true_iff] at hwsc
            obtain ⟨h4, hnum⟩ := hwsc
            obtain ⟨s, hs⟩ := rgba_string_ok cs h4 hnum
            refine ⟨material_name i (Json.obj fs), some s,
              (List.lookup "baseColorTexture" pfs).isSome,
              some ((List.lookup "metallicFactor" pfs).getD (Json.num (pf 1 1))),
              some ((List.lookup "roughnessFactor" pfs).getD (Json.num (pf 1 1))), ?_⟩
            rw [hdc]
            simp only [check_material, Json.lookup, hpbr, pyIn, hbc, Option.isSome_some,
              pySubscriptKey, hs, pyGetD, Bool.true_or, eq_self_iff_true, if_true]

lemma materials_loop_spec (ms : List Json) :
    ∀ (i : Nat) (infos0 : List MatInfo) (issues0 : List ModelIssue),
    ms.all WellShapedMaterial = true →
    ∃ infos, materials_loop ms i infos0 issues0 =
        .ok (infos0 ++ infos, issues0 ++ expected_material_issues i ms) ∧
      infos.map (fun info => info.index) = List.range' i ms.length := by
  induction ms with
  | nil =>
    intro i infos0 issues0 _
    refine ⟨[], ?_, rfl⟩
    simp [materials_loop, expected_material_issues]
  | cons m rest ih =>
    intro i infos0 issues0 hws
    rw [List.all_cons, Bool.and_eq_true] at hws
    obtain ⟨name, bc, tex, met, rough, hcm⟩ := check_material_spec i m hws.1
    by_cases hcond : (declares_base_color m || declares_base_texture m) = true
    · rw [if_pos hcond] at hcm
      obtain ⟨infos, hloop, hmap⟩ :=
        ih (i + 1) (infos0 ++ [⟨name, i, bc, tex, met, rough⟩]) issues0 hws.2
      refine ⟨⟨name, i, bc, tex, met, rough⟩ :: infos, ?_, ?_⟩
      · simp only [materials_loop, hcm, hloop]
        simp only [expected_material_issues]
        rw [if_pos hcond]
        simp [List.append_assoc]
      · simp only [List.map_cons, hmap, List.length_cons]
        rfl
    · rw [if_neg hcond] at hcm
      obtain ⟨infos, hloop, hmap⟩ :=
        ih (i + 1) (infos0 ++ [⟨name, i, bc, tex, met, rough⟩])
          (issues0 ++ [material_issue (material_name i m)]) hws.2
      refine ⟨⟨name, i, bc, tex, met, rough⟩ :: infos, ?_, ?_⟩
      · simp only [materials_loop, hcm, hloop]
        simp only [expected_material_issues]
        rw [if_neg hcond]
        simp [List.append_assoc]
      · simp only [List.map_cons, hmap, List.length_cons]
        rfl

lemma expected_material_issues_mem (ms : List Json) :
    ∀ (i : Nat) (iss : ModelIssue), iss ∈ expected_material_issues i ms →
    iss.category = "material" ∧ iss.severity = "error" := by
  induction ms with
  | nil => intro i iss h; simp [expected_material_issues] at h
  | cons m rest ih =>
    intro i iss h
    simp only [expected_material_issues] at h
    rw [List.mem_append] at h
    rcases h with h | h
    · split at h
      · simp at h
      · rw [List.mem_singleton] at h
        subst h
        exact ⟨rfl, rfl⟩
    · exact ih (i + 1) iss h

/-- C5: for a non-empty, well-shaped material list, the material stage
appends one record per material in list order (indices `0, 1, ...`),
and the `material`-category issues of the final result are exactly one
`error` per material that declares neither a base-color factor nor a
base-color texture, naming that material by its declared name or
`Material_<index>`. -/
theorem C5_material_issue_iff (path : String) (fs : List (String × Json))
    (mats : List Json) (res : ModelValidationResult)
    (hm : List.lookup "materials" fs = some (Json.arr mats))
    (hne : mats ≠ [])
    (hws : mats.all WellShapedMaterial = true)
    (hok : validate_model path (some (Json.obj fs)) = .ok res) :
    res.materials.map (fun info => info.index) = List.range' 0 mats.length ∧
    res.issues.filter (fun iss => iss.category == "material") =
      expected_material_issues 0 mats := by
  have hfalsy : (Json.obj fs).falsy = false := by
    cases fs with
    | nil => simp at hm
    | cons a t => rfl
  simp only [validate_model, hfalsy, Bool.false_eq_true, if_false] at hok
  obtain ⟨infos, hloop, hmap⟩ := materials_loop_spec mats 0 [] [] hws
  have hms : material_stage (Json.obj fs) =
      .ok (infos, expected_material_issues 0 mats) := by
    simp only [material_stage, pyIn, hm, Option.isSome_some, pySubscriptKey, pyLen, pyIter]
    rw [if_neg (by simpa using hne)]
    rw [hloop]
    simp
  rw [hms] at hok
  cases hbs : bounds_stage (Json.obj fs) with
  | error e => rw [hbs] at hok; exact Except.noConfusion hok
  | ok q =>
    obtain ⟨max_dim, boxes, present⟩ := q
    rw [hbs] at hok
    injection hok with hok
    subst hok
    refine ⟨hmap, ?_⟩
    rw [List.filter_append]
    have h1 : (expected_material_issues 0 mats).filter
        (fun iss => iss.category == "material") = expected_material_issues 0 mats := by
      rw [List.filter_eq_self]
      intro iss hmem
      rw [(expected_material_issues_mem mats 0 iss hmem).1]
      rfl
    have h2 : (if (present = true) then scale_issues max_dim else []).filter
        (fun iss => iss.category == "material") = [] := by
      cases present with
      | false => rfl
      | true =>
        rw [if_pos rfl]
        rw [List.filter_eq_nil_iff]
        intro iss hmem
        rcases (scale_issues_mem max_dim iss hmem).2 with hc | hc <;> rw [hc] <;> decide
    rw [h1, h2, List.append_nil]

/-- Witness for C5 at a concrete document with two materials: the first
has a base-color texture (no issue), the second — named "Steel" — has
neither color nor texture and receives exactly one `material`/`error`
issue naming it. -/
theorem C5_witness :
    ((⟨"w.glb",
        [⟨Json.str "Material_0", 0, none, true, some (Json.num (pf 1 1)),
            some (Json.num (pf 1 1))⟩,
          ⟨Json.str "Steel", 1, none, false, none, none⟩],
        [], pf 0 1,
        [material_issue (Json.str "Steel")]⟩ : ModelValidationResult).materials.map
          (fun info => info.index) =
        List.range' 0
          ([Json.obj [("pbrMetallicRoughness",
              Json.obj [("baseColorTexture", Json.obj [("index", Json.num (pf 0 1))])])],
            Json.obj [("name", Json.str "Steel")]] : List Json).length) ∧
    ((⟨"w.glb",
        [⟨Json.str "Material_0", 0, none, true, some (Json.num (pf 1 1)),
            some (Json.num (pf 1 1))⟩,
          ⟨Json.str "Steel", 1, none, false, none, none⟩],
        [], pf 0 1,
        [material_issue (Json.str "Steel")]⟩ : ModelValidationResult).issues.filter
          (fun iss => iss.category == "material") =
      expected_material_issues 0
        [Json.obj [("pbrMetallicRoughness",
            Json.obj [("baseColorTexture", Json.obj [("index", Json.num (pf 0 1))])])],
          Json.obj [("name", Json.str "Steel")]]) := by
  have hok : validate_model "w.glb"
      (some (Json.obj [("materials", Json.arr
        [Json.obj [("pbrMetallicRoughness",
            Json.obj [("baseColorTexture", Json.obj [("index", Json.num (pf 0 1))])])],
          Json.obj [("name", Json.str "Steel")]])])) =
      .ok ⟨"w.glb",
        [⟨Json.str "Material_0", 0, none, true, some (Json.num (pf 1 1)),
            some (Json.num (pf 1 1))⟩,
          ⟨Json.str "Steel", 1, none, false, none, none⟩],
        [], pf 0 1,
        [material_issue (Json.str "Steel")]⟩ := rfl
  exact C5_material_issue_iff "w.glb"
    [("materials", Json.arr
      [Json.obj [("pbrMetallicRoughness",
          Json.obj [("baseColorTexture", Json.obj [("index", Json.num (pf 0 1))])])],
        Json.obj [("name", Json.str "Steel")]])]
    [Json.obj [("pbrMetallicRoughness",
        Json.obj [("baseColorTexture", Json.obj [("index", Json.num (pf 0 1))])])],
      Json.obj [("name", Json.str "Steel")]]
    _ rfl (by simp) rfl hok
